import Mathlib

/-
Verification of the bub_logger configuration-merge engine and dispatch
pipeline (src/bub_logger/bub_logger.py), as a shallow embedding.

Python dicts are modelled as association lists in insertion order
(assignment to an existing key keeps its position, a new key is appended),
exceptions as explicit error values, and the mutable BubLogger instance as
an explicit state record threaded through the methods.
-/

/-- Lookup in the association-list model of a Python dict: first binding of
the key, scanning in insertion order. -/
def alistLookup {α : Type} (m : List (String × α)) (k : String) : Option α :=
  match m with
  | [] => none
  | (k1, v) :: rest => if k1 = k then some v else alistLookup rest k

/-- Assignment in the association-list model of a Python dict: an existing
key keeps its position and gets the new value, a new key is appended. -/
def alistSet {α : Type} (m : List (String × α)) (k : String) (v : α) :
    List (String × α) :=
  match m with
  | [] => [(k, v)]
  | (k1, v1) :: rest =>
    if k1 = k then (k1, v) :: rest else (k1, v1) :: alistSet rest k v

/-- Python dict.update: every binding of the second dict is assigned into
the first, in the second dict's order. -/
def alistUpdate {α : Type} (m other : List (String × α)) :
    List (String × α) :=
  other.foldl (fun acc kv => alistSet acc kv.1 kv.2) m

/-- A formatter entry: the dict of its fields (format, datefmt, ...). -/
abbrev FormatterCfg : Type := List (String × String)

/-- Exceptions raised by the modelled code paths. -/
inductive PyError : Type
  | fileNotFound (msg : String)
  | valueError (msg : String)
  | keyError (key : String)
  | unboundLocal (name : String)
  deriving DecidableEq

/-- A handler entry of a configuration document. The dict keys class,
level and formatter are modelled as fields; every further key (filename,
stream, maxBytes, ...) lives in otherKeys. -/
structure HandlerCfg where
  cls : String
  level : Option Nat := none
  formatter : Option String := none
  otherKeys : List (String × String) := []
  deriving DecidableEq

/-- A logger entry of a configuration document: its numeric severity, its
handler-name list, and any remaining keys (propagate, ...) untouched by the
code. -/
structure LoggerCfg where
  level : Nat
  handlers : List String := []
  extra : List (String × String) := []
  deriving DecidableEq

/-- The Config class (bub_logger.py lines 18-48): a named, parsed document.
Its Python equality compares names only, which the load/remove paths use
for replace-on-reload. -/
structure Config where
  name : String
  version : Nat := 1
  formatters : List (String × FormatterCfg) := []
  handlers : List (String × HandlerCfg) := []
  loggers : List (String × LoggerCfg) := []
  deriving DecidableEq

/-- The combined_config dict built by merge_configs_and_get_handlers. -/
structure CombinedConfig where
  version : Nat
  disable_existing_loggers : Bool
  formatters : List (String × FormatterCfg)
  handlers : List (String × HandlerCfg)
  loggers : List (String × LoggerCfg)
  deriving DecidableEq

/-- The class string the merge engine compares handler entries against. -/
def queueHandlerClass : String := "logging.handlers.QueueHandler"

/-- The queue-relay handler entry the merge engine synthesizes at lines
272-276: a QueueHandler bound to the instance's queue object (the object
reference is modelled by a marker string). -/
def queueHandlerCfg : HandlerCfg :=
  { cls := queueHandlerClass, otherKeys := [("queue", "self.queue")] }

/-- The formatter part of the per-document merge loop (lines 232-244):
per name, insert when absent or field-wise update when present; then the
dict update on line 244 rebinds every name defined in the current document
to that document's own definition, discarding the field-wise result. -/
def mergeFormattersStep (acc : List (String × FormatterCfg))
    (fmts : List (String × FormatterCfg)) : List (String × FormatterCfg) :=
  let step1 := fmts.foldl (fun a kv =>
    match alistLookup a kv.1 with
    | none => alistSet a kv.1 kv.2
    | some old => alistSet a kv.1 (alistUpdate old kv.2)) acc
  alistUpdate step1 fmts

/-- The handler part of the per-document merge loop (lines 247-253): an
entry whose class is not the queue-relay class is appended to
actual_handlers; a relay-class entry is stored in the combined handler
table under its own name. -/
def splitHandlersStep
    (acc : List (String × HandlerCfg) × List (String × HandlerCfg))
    (hs : List (String × HandlerCfg)) :
    List (String × HandlerCfg) × List (String × HandlerCfg) :=
  hs.foldl (fun p kv =>
    if kv.2.cls ≠ queueHandlerClass then (p.1, p.2 ++ [kv])
    else (alistSet p.1 kv.1 kv.2, p.2)) acc

/-- The loggers loop (lines 256-269). Python list(set(xs)) in its merge
branch has unspecified order and is modelled by List.dedup; that branch is
unreachable from the initial empty logger table (names inside one dict are
distinct) and its handler list is overwritten with ["queue"] on the next
line anyway. The level becomes the minimum of the stored and incoming
levels; on a fresh insert both are the incoming level. -/
def mergeLoggersStep (acc : List (String × LoggerCfg))
    (ls : List (String × LoggerCfg)) : List (String × LoggerCfg) :=
  ls.foldl (fun a kv =>
    let a1 := match alistLookup a kv.1 with
      | none => alistSet a kv.1 kv.2
      | some old => alistSet a kv.1
          { old with handlers := List.dedup (old.handlers ++ kv.2.handlers) }
    let cur := (alistLookup a1 kv.1).getD kv.2
    alistSet a1 kv.1
      { cur with handlers := ["queue"], level := min cur.level kv.2.level }) acc

/-- One iteration of the for-config loop of merge_configs_and_get_handlers
(lines 231-253): fold the document's formatters and split its handlers. -/
def mergeStep (p : CombinedConfig × List (String × HandlerCfg))
    (cfg : Config) : CombinedConfig × List (String × HandlerCfg) :=
  let fmts := mergeFormattersStep p.1.formatters cfg.formatters
  let hs := splitHandlersStep (p.1.handlers, p.2) cfg.handlers
  ({ p.1 with formatters := fmts, handlers := hs.1 }, hs.2)

/-- The empty combined_config the merge starts from (lines 221-227). -/
def initCombined : CombinedConfig :=
  { version := 1, disable_existing_loggers := false,
    formatters := [], handlers := [], loggers := [] }

/-- BubLogger.merge_configs_and_get_handlers (lines 218-277). The loggers
loop at line 256 sits outside the for-config loop and reads the loop
variable config, so it processes only the last document's loggers and
raises UnboundLocalError when the document list is empty (before the
queue-relay synthesis is reached). -/
def merge_configs_and_get_handlers (configs : List Config) :
    Except PyError (CombinedConfig × List (String × HandlerCfg)) :=
  let folded := configs.foldl mergeStep
    (initCombined, ([] : List (String × HandlerCfg)))
  match configs.getLast? with
  | none => Except.error (PyError.unboundLocal "config")
  | some last =>
    let withLoggers :=
      { folded.1 with loggers := mergeLoggersStep folded.1.loggers last.loggers }
    let withQueue :=
      if (alistLookup withLoggers.handlers "queue").isSome then withLoggers
      else { withLoggers with
              handlers := alistSet withLoggers.handlers "queue" queueHandlerCfg }
    Except.ok (withQueue, folded.2)

/-- Python "s".split(".")[-1]: characters after the last dot (the whole
string when it has no dot, empty after a trailing dot). -/
def lastComponentAux (cs : List Char) (cur : List Char) : List Char :=
  match cs with
  | [] => cur
  | c :: rest =>
    if c = '.' then lastComponentAux rest []
    else lastComponentAux rest (cur ++ [c])

/-- The handler_class_name computed at line 290. -/
def lastComponent (s : String) : String :=
  String.mk (lastComponentAux s.toList [])

/-- The three adapter kinds apply_configs can instantiate. -/
inductive HandlerKind : Type
  | stream
  | rotatingFile
  | file
  deriving DecidableEq

/-- Resolution of a handler class name in BubLogger.apply_configs (lines
290-301): only StreamHandler, RotatingFileHandler and FileHandler are
implemented; anything else raises ValueError naming the class. -/
def resolveHandlerClass (cls : String) : Except PyError HandlerKind :=
  let n := lastComponent cls
  if n = "StreamHandler" then Except.ok HandlerKind.stream
  else if n = "RotatingFileHandler" then Except.ok HandlerKind.rotatingFile
  else if n = "FileHandler" then Except.ok HandlerKind.file
  else Except.error (PyError.valueError ("Unknown handler class: " ++ n))

/-- A constructed handler instance: its kind, the constructor kwargs (the
handler dict minus class, formatter and level), the format string set by
setFormatter, and the level set by setLevel (none means never set, which
the host library treats as NOTSET = 0). -/
structure HandlerInstance where
  kind : HandlerKind
  params : List (String × String)
  formatStr : Option String := none
  level : Option Nat := none
  deriving DecidableEq

/-- Instantiation of one actual handler in apply_configs (lines 289-322):
resolve the class, build it from the remaining kwargs, look the formatter
up in the combined formatter table (KeyError when the name or its format
key is absent), and set the level when the dict has one. -/
def buildHandlerInstance (formatters : List (String × FormatterCfg))
    (h : HandlerCfg) : Except PyError HandlerInstance := do
  let kind ← resolveHandlerClass h.cls
  let base : HandlerInstance := { kind := kind, params := h.otherKeys }
  let withFmt ← match h.formatter with
    | none => pure base
    | some fname =>
      match alistLookup formatters fname with
      | none => Except.error (PyError.keyError fname)
      | some fc =>
        match alistLookup fc "format" with
        | none => Except.error (PyError.keyError "format")
        | some f => pure { base with formatStr := some f }
  pure { withFmt with level := h.level }

/-- The instantiation loop over actual_handlers, in order, stopping at the
first raised error. -/
def buildHandlerInstances (formatters : List (String × FormatterCfg))
    (actual : List (String × HandlerCfg)) : Except PyError (List HandlerInstance) :=
  match actual with
  | [] => Except.ok []
  | kv :: rest => do
    let i ← buildHandlerInstance formatters kv.2
    let is ← buildHandlerInstances formatters rest
    pure (i :: is)

/-- The mutable data of a BubLogger instance: the loaded-document list, the
handler set of the running queue listener (none before the first start),
the last combined configuration handed to logging.config.dictConfig, and
the configured flag. -/
structure BubState where
  configs : List Config
  listenerHandlers : Option (List HandlerInstance) := none
  dictConfigApplied : Option CombinedConfig := none
  configured : Bool := false
  deriving DecidableEq

/-- The state of a freshly constructed BubLogger (lines 62-75; the
filesystem scan, atexit hook and excepthook registration carry no data the
claims depend on). -/
def initState : BubState := { configs := [] }

/-- BubLogger.apply_configs (lines 279-333) as a state transformer
returning the state left behind together with the raised error, if any.
dictConfig runs before handler instantiation, so an instantiation failure
leaves the merged configuration already applied while the listener keeps
its previous handler set; on success the listener is swapped to the new
instances and the configured flag set. -/
def apply_configs (st : BubState) : BubState × Option PyError :=
  match merge_configs_and_get_handlers st.configs with
  | Except.error e => (st, some e)
  | Except.ok (combined, actual) =>
    let st1 := { st with dictConfigApplied := some combined }
    match buildHandlerInstances combined.formatters actual with
    | Except.error e => (st1, some e)
    | Except.ok insts =>
      ({ st1 with listenerHandlers := some insts, configured := true }, none)

/-- A configuration document as parsed by json.loads / yaml.safe_load and
accepted by Config(**...). Levels present in raw documents are irrelevant:
load_config overwrites every handler level and every logger level before
the Config object is constructed. -/
structure RawConfig where
  version : Nat := 1
  formatters : List (String × FormatterCfg) := []
  handlers : List (String × HandlerCfg) := []
  loggers : List (String × LoggerCfg) := []
  deriving DecidableEq

/-- The package's configs directory: file stem to the parse outcome of the
file's content (get_config_file and the json/yaml parsers are external
collaborators per the spec's scope). -/
abbrev FileStore : Type := List (String × Except PyError RawConfig)

/-- logging.getLevelName on the standard level names, numerically. -/
def levelToNat (s : String) : Option Nat :=
  if s = "CRITICAL" then some 50
  else if s = "FATAL" then some 50
  else if s = "ERROR" then some 40
  else if s = "WARNING" then some 30
  else if s = "WARN" then some 30
  else if s = "INFO" then some 20
  else if s = "DEBUG" then some 10
  else if s = "NOTSET" then some 0
  else none

/-- list.remove on the configs list: Config equality compares names, so
the first document with the given name is dropped (identity when the name
is absent, matching the membership guard at line 212). -/
def removeFirstByName (cs : List Config) (nm : String) : List Config :=
  match cs with
  | [] => []
  | c :: rest => if c.name = nm then rest else c :: removeFirstByName rest nm

/-- BubLogger.load_config (lines 165-216). The formatter parameter is
accepted and never read. File lookup and parsing are modelled by the
FileStore. An unknown level name is modelled as an immediate error: the
source stores the fallback string logging.getLevelName returns and fails
on the same inputs later, inside dictConfig/setLevel. On success the
document replaces any loaded document of the same name, is appended, and
apply_configs runs. -/
def load_config (fs : FileStore) (st : BubState) (config_file : String)
    (log_file_path : Option String) (log_level : String)
    (formatter : Option String) : BubState × Option PyError :=
  match alistLookup fs config_file with
  | none => (st, some (PyError.fileNotFound config_file))
  | some (Except.error e) => (st, some e)
  | some (Except.ok raw) =>
    match levelToNat log_level with
    | none => (st, some (PyError.valueError log_level))
    | some lvl =>
      let hs := raw.handlers.map (fun kv =>
        let h1 := match log_file_path with
          | none => kv.2
          | some p =>
            if (alistLookup kv.2.otherKeys "filename").isSome
            then { kv.2 with otherKeys := alistSet kv.2.otherKeys "filename" p }
            else kv.2
        (kv.1, { h1 with level := some lvl }))
      let ls := raw.loggers.map (fun kv => (kv.1, { kv.2 with level := 10 }))
      let cfg : Config :=
        { name := config_file, version := raw.version,
          formatters := raw.formatters, handlers := hs, loggers := ls }
      let st1 := { st with
        configs := removeFirstByName st.configs config_file ++ [cfg] }
      apply_configs st1

/-- One tuple handed to load_configs (file, path, level, formatter). -/
structure LoadItem where
  file : String
  path : Option String := none
  level : String := "DEBUG"
  fmtr : Option String := none
  deriving DecidableEq

/-- BubLogger.load_configs (lines 119-132): load_config on each tuple in
order; a raised exception aborts the remaining loads. -/
def load_configs (fs : FileStore) (st : BubState) (items : List LoadItem) :
    BubState × Option PyError :=
  match items with
  | [] => (st, none)
  | it :: rest =>
    match load_config fs st it.file it.path it.level it.fmtr with
    | (st1, some e) => (st1, some e)
    | (st1, none) => load_configs fs st1 rest

/-- BubLogger.get_instance (lines 436-448): a fresh instance which, when a
config_file is given, forwards all four arguments to load_config. -/
def get_instance (fs : FileStore) (config_file : Option String)
    (log_file_path : Option String) (log_level : String)
    (formatter : Option String) : BubState × Option PyError :=
  match config_file with
  | none => (initState, none)
  | some cf => load_config fs initState cf log_file_path log_level formatter

/-- A log record as the delivery paths see it: originating logger, numeric
severity, message. -/
structure Record where
  loggerName : String
  level : Nat
  msg : String
  deriving DecidableEq

/-- The effective level of a handler instance: NOTSET = 0 when setLevel was
never called. -/
def handlerLevel (h : HandlerInstance) : Nat := h.level.getD 0

/-- Handler.handle of the host logging library: runs the handler's filters
(this program never attaches any, so they accept) and emits; it performs no
comparison of the record level against the handler level. -/
def handlerHandle (_h : HandlerInstance) (_r : Record) : Bool := true

/-- One record step of QueueListener._monitor: the listener was started
with respect_handler_level=True (line 329), so a handler is invoked only
when the record's level reaches the handler's level, and delivery then goes
through Handler.handle. -/
def relayStep (hs : List HandlerInstance)
    (acc : List (HandlerInstance × Record)) (r : Record) :
    List (HandlerInstance × Record) :=
  acc ++ ((hs.filter (fun h =>
    decide (handlerLevel h ≤ r.level) && handlerHandle h r)).map (fun h => (h, r)))

/-- The pairs (handler, record) the background queue-relay path delivers
when draining the given queue. -/
def queueRelayDeliveries (hs : List HandlerInstance) (q : List Record) :
    List (HandlerInstance × Record) :=
  q.foldl (relayStep hs) []

/-- One record step of BubLogger.flush_queue (lines 405-410): every
listener handler gets Handler.handle called on it directly, with no level
comparison anywhere. -/
def flushStep (hs : List HandlerInstance)
    (acc : List (HandlerInstance × Record)) (r : Record) :
    List (HandlerInstance × Record) :=
  acc ++ ((hs.filter (fun h => handlerHandle h r)).map (fun h => (h, r)))

/-- The pairs (handler, record) the manual flush path delivers when
draining the given queue. -/
def flushQueueDeliveries (hs : List HandlerInstance) (q : List Record) :
    List (HandlerInstance × Record) :=
  q.foldl (flushStep hs) []

/-- Observable operations of the uncaught-exception hook. flushQueueCall is
in the vocabulary so that its absence from the hook's trace is statable. -/
inductive HookOp : Type
  | getLogger (name : String)
  | logCritical (msg : String)
  | defaultExcepthook
  | exitStatus (code : Nat)
  | flushQueueCall
  deriving DecidableEq

/-- The start marker line logged at line 398. -/
def tbStartMarker : String :=
  "---------------------Traceback lines-----------------------"

/-- The end marker line logged at line 400. -/
def tbEndMarker : String :=
  "---------------------End of Traceback-----------------------"

/-- BubLogger.log_uncaught_exceptions (lines 388-403) as the ordered list
of observable operations it performs, given whether the exception type is a
KeyboardInterrupt subclass and the formatted traceback lines. get_logger is
called before the KeyboardInterrupt test; on KeyboardInterrupt the default
excepthook runs and the method returns without logging or exiting; else the
three critical records are emitted, the default excepthook runs, and
sys.exit(1) is raised. -/
def log_uncaught_exceptions (isKeyboardInterrupt : Bool)
    (lines : List String) : List HookOp :=
  HookOp.getLogger "uncaught_exceptions" ::
    (if isKeyboardInterrupt then [HookOp.defaultExcepthook]
     else [HookOp.logCritical tbStartMarker,
           HookOp.logCritical (String.intercalate "\n" lines),
           HookOp.logCritical tbEndMarker,
           HookOp.defaultExcepthook,
           HookOp.exitStatus 1])

/-- The messages of the critical-level records in an operation trace. -/
def criticalMsgs (ops : List HookOp) : List String :=
  ops.filterMap (fun op => match op with
    | HookOp.logCritical m => some m
    | _ => none)

/-- A document defining logger X at severity 10. -/
def docC1a : Config :=
  { name := "c1a", loggers := [("X", { level := 10, handlers := ["console"] })] }

/-- A later document defining only logger Y, at severity 20. -/
def docC1b : Config :=
  { name := "c1b", loggers := [("Y", { level := 20, handlers := ["console"] })] }

/-- A later document defining logger X at severity 20. -/
def docC1c : Config :=
  { name := "c1c", loggers := [("X", { level := 20, handlers := ["console"] })] }

/-- C1: the loggers merge loop runs only over the last loaded document.
Merging a document that defines logger X at severity 10 with a later
document defining only logger Y leaves X absent from the merged
configuration, and merging X at 10 with a later X at 20 yields severity 20
rather than the minimum 10 — the loop at line 256 is dedented out of the
per-document loop, contradicting step 5 of the spec's merge algorithm. -/
theorem mergeLoggers_last_document_only :
    (merge_configs_and_get_handlers [docC1a, docC1b]).map
        (fun p => alistLookup p.1.loggers "X") = Except.ok none
    ∧ (merge_configs_and_get_handlers [docC1a, docC1c]).map
        (fun p => (alistLookup p.1.loggers "X").map (fun lc => lc.level))
      = Except.ok (some 20) := by
  exact ⟨rfl, rfl⟩

/-- C8: merging an empty document list raises — the loggers loop at line
256 reads the loop variable of the completed for-config loop, which was
never bound — instead of yielding a relay-only configuration. -/
theorem merge_empty_documents_raises :
    merge_configs_and_get_handlers []
      = Except.error (PyError.unboundLocal "config") := rfl

/-- A document defining formatter A with a format and a datefmt field. -/
def docC2a : Config :=
  { name := "c2a", formatters := [("A", [("format", "f1"), ("datefmt", "d1")])] }

/-- A later document overriding only formatter A's format field. -/
def docC2b : Config :=
  { name := "c2b", formatters := [("A", [("format", "f2")])] }

/-- The merged formatter A of the two documents above. -/
def mergedFormatterA : Option FormatterCfg :=
  match merge_configs_and_get_handlers [docC2a, docC2b] with
  | Except.ok p => alistLookup p.1.formatters "A"
  | Except.error _ => none

/-- C2 counterexample: merging doc1's formatter A (format f1, datefmt d1)
with doc2's A (format f2 only) yields exactly doc2's definition; the
datefmt key contributed by doc1 is gone, so the merged entry is not the key
union the claim describes. -/
theorem formatter_merge_not_key_union :
    mergedFormatterA = some [("format", "f2")]
    ∧ mergedFormatterA ≠ some [("format", "f2"), ("datefmt", "d1")] := by
  exact ⟨rfl, by decide⟩

/-- A document whose only content is formatter A with the given fields. -/
def fmtOnlyDoc (nm : String) (fc : FormatterCfg) : Config :=
  { name := nm, formatters := [("A", fc)] }

/-- C2 amended: when two documents both define formatter A, the merged
entry is the later document's definition wholesale — the dict update at
line 244 rebinds the name after the field-wise loop — so in particular a
full override by the second document yields that document's definition. -/
theorem formatter_merge_last_wins (fc1 fc2 : FormatterCfg) :
    (merge_configs_and_get_handlers [fmtOnlyDoc "d1" fc1, fmtOnlyDoc "d2" fc2]).map
        (fun p => alistLookup p.1.formatters "A") = Except.ok (some fc2) := by
  simp [merge_configs_and_get_handlers, fmtOnlyDoc, mergeStep,
        mergeFormattersStep, splitHandlersStep, mergeLoggersStep,
        alistUpdate, alistSet, alistLookup, initCombined, Except.map]

/-- A document supplying a relay-class handler under the name myqueue. -/
def docC3 : Config :=
  { name := "c3", handlers := [("myqueue", { cls := queueHandlerClass })] }

/-- The number of relay-class (QueueHandler) entries in a handler table. -/
def relayCount (hs : List (String × HandlerCfg)) : Nat :=
  (hs.filter (fun kv => decide (kv.2.cls = queueHandlerClass))).length

/-- C3 counterexample: a document supplying a relay-class handler named
myqueue has that entry kept in the merged handler table, and a second relay
is still synthesized under the name queue — two relay sinks in the
effective configuration, one of them document-supplied. -/
theorem relay_not_unique_counterexample :
    (merge_configs_and_get_handlers [docC3]).map
        (fun p => relayCount p.1.handlers) = Except.ok 2
    ∧ (merge_configs_and_get_handlers [docC3]).map
        (fun p => alistLookup p.1.handlers "myqueue")
      = Except.ok (some { cls := queueHandlerClass }) := by
  exact ⟨rfl, rfl⟩

/-- Helper: the handler split keeps the combined handler table unchanged
when no entry of the document has the relay class. -/
theorem splitHandlersStep_no_relay (l : List (String × HandlerCfg))
    (acc : List (String × HandlerCfg) × List (String × HandlerCfg))
    (h : ∀ kv ∈ l, kv.2.cls ≠ queueHandlerClass) :
    (splitHandlersStep acc l).1 = acc.1 := by
  induction l generalizing acc with
  | nil => rfl
  | cons kv rest ih =>
    have hkv : kv.2.cls ≠ queueHandlerClass := h kv (by simp)
    have hrest : ∀ x ∈ rest, x.2.cls ≠ queueHandlerClass :=
      fun x hx => h x (List.mem_cons_of_mem kv hx)
    simp only [splitHandlersStep, List.foldl_cons] at ih ⊢
    rw [if_pos hkv]
    exact ih (acc.1, acc.2 ++ [kv]) hrest

/-- Helper: the per-document merge fold leaves the handler table empty when
no document supplies a relay-class handler entry. -/
theorem mergeFold_handlers_empty (cs : List Config)
    (p : CombinedConfig × List (String × HandlerCfg))
    (hp : p.1.handlers = [])
    (h : ∀ cfg ∈ cs, ∀ kv ∈ cfg.handlers, kv.2.cls ≠ queueHandlerClass) :
    (cs.foldl mergeStep p).1.handlers = [] := by
  induction cs generalizing p with
  | nil => exact hp
  | cons c rest ih =>
    have hc := h c (by simp)
    have hrest : ∀ cfg ∈ rest, ∀ kv ∈ cfg.handlers, kv.2.cls ≠ queueHandlerClass :=
      fun cfg hcfg => h cfg (List.mem_cons_of_mem c hcfg)
    simp only [List.foldl_cons]
    refine ih (mergeStep p c) ?_ hrest
    show (splitHandlersStep (p.1.handlers, p.2) c.handlers).1 = []
    rw [splitHandlersStep_no_relay c.handlers (p.1.handlers, p.2) hc]
    exact hp

/-- C3 amended: the merge engine guarantees at least one relay sink and
synthesizes one only when no handler named queue is already present;
whenever no document supplies any relay-class handler entry, the merged
handler table is exactly the single synthesized queue relay. -/
theorem relay_synthesized_when_not_supplied (c : Config) (cs : List Config)
    (hnone : ∀ cfg ∈ c :: cs, ∀ kv ∈ cfg.handlers, kv.2.cls ≠ queueHandlerClass) :
    (merge_configs_and_get_handlers (c :: cs)).map (fun p => p.1.handlers)
      = Except.ok [("queue", queueHandlerCfg)] := by
  have hempty : ((c :: cs).foldl mergeStep
      (initCombined, ([] : List (String × HandlerCfg)))).1.handlers = [] :=
    mergeFold_handlers_empty (c :: cs) _ rfl hnone
  obtain ⟨l, hl⟩ : ∃ l, (c :: cs).getLast? = some l := by
    cases hh : (c :: cs).getLast? with
    | none => exact absurd (List.getLast?_eq_none_iff.mp hh) (by simp)
    | some l => exact ⟨l, rfl⟩
  simp only [merge_configs_and_get_handlers, hl, hempty, alistLookup,
    Option.isSome_none, Bool.false_eq_true, if_false, alistSet, Except.map]

/-- A relay-free document used to witness the synthesized relay. -/
def docC3w : Config :=
  { name := "c3w",
    handlers := [("console", { cls := "logging.StreamHandler" })],
    loggers := [("L", { level := 10, handlers := ["console"] })] }

/-- Witness for the amended C3 theorem at a concrete relay-free document. -/
theorem relay_synthesized_witness :
    (merge_configs_and_get_handlers [docC3w]).map (fun p => p.1.handlers)
      = Except.ok [("queue", queueHandlerCfg)] :=
  relay_synthesized_when_not_supplied docC3w [] (by decide)

/-- A document whose only handler has a class with no adapter. -/
def docC7 : Config :=
  { name := "c7",
    handlers := [("fancy", { cls := "x.y.FancyHandler", level := some 10 })],
    loggers := [("app", { level := 10, handlers := ["fancy"] })] }

/-- The state of an instance that has loaded only the unknown-kind doc. -/
def stC7 : BubState := { configs := [docC7] }

/-- Whether an Except carries a value. -/
def exceptOk {ε α : Type} (x : Except ε α) : Bool :=
  match x with
  | Except.ok _ => true
  | Except.error _ => false

/-- C7: an unrecognized handler class passes the merge untouched and fails
at apply time with a ValueError naming the offending class; more generally
the merge succeeds on every nonempty document list, since it never resolves
concrete handler classes. -/
theorem unknown_kind_fails_at_apply_only :
    exceptOk (merge_configs_and_get_handlers [docC7]) = true
    ∧ (apply_configs stC7).2
      = some (PyError.valueError "Unknown handler class: FancyHandler")
    ∧ ∀ (c : Config) (cs : List Config),
        exceptOk (merge_configs_and_get_handlers (c :: cs)) = true := by
  refine ⟨rfl, rfl, ?_⟩
  intro c cs
  obtain ⟨l, hl⟩ : ∃ l, (c :: cs).getLast? = some l := by
    cases hh : (c :: cs).getLast? with
    | none => exact absurd (List.getLast?_eq_none_iff.mp hh) (by simp)
    | some l => exact ⟨l, rfl⟩
  simp only [merge_configs_and_get_handlers, hl, exceptOk]

/-- A well-formed document whose handler has an implemented class. -/
def rawGood : RawConfig :=
  { formatters := [("standard", [("format", "%(message)s")])],
    handlers := [("console",
      { cls := "logging.StreamHandler", formatter := some "standard" })],
    loggers := [("app", { level := 10, handlers := ["console"] })] }

/-- A document whose handler class has no adapter implementation. -/
def rawBad : RawConfig :=
  { handlers := [("weird", { cls := "socket.WeirdHandler" })],
    loggers := [("app", { level := 10, handlers := ["weird"] })] }

/-- A file store with a good document, an apply-time-failing document and
an unparsable document. -/
def fsC4 : FileStore :=
  [("good", Except.ok rawGood),
   ("bad", Except.ok rawBad),
   ("broken", Except.error (PyError.valueError "parse"))]

/-- The state after successfully loading the good document. -/
def stC4 : BubState := (load_config fsC4 initState "good" none "DEBUG" none).1

/-- The Config object load_config builds from rawBad at level DEBUG. -/
def cfgBadLoaded : Config :=
  { name := "bad",
    handlers := [("weird", { cls := "socket.WeirdHandler", level := some 10 })],
    loggers := [("app", { level := 10, handlers := ["weird"] })] }

/-- C4 counterexample: loading a document whose handler class has no
adapter raises, yet the loaded-document list of the resulting state differs
from the previous one — the document was appended before apply_configs ran,
and is not rolled back. -/
theorem failing_load_mutates_state :
    ((load_config fsC4 stC4 "bad" none "DEBUG" none).2).isSome = true
    ∧ (load_config fsC4 stC4 "bad" none "DEBUG" none).1.configs
      ≠ stC4.configs := by
  exact ⟨rfl, by decide⟩

/-- C4 amended: a load failing at file lookup or at parse time leaves the
state unchanged; a load failing at apply time (unknown handler class)
leaves the new document appended to the loaded-document list and the merged
configuration already handed to dictConfig, while the running listener's
handler set is untouched. -/
theorem load_failure_behavior (fs : FileStore) (st : BubState)
    (cf : String) (lfp : Option String) (ll : String) (fm : Option String) :
    (alistLookup fs cf = none →
      load_config fs st cf lfp ll fm = (st, some (PyError.fileNotFound cf)))
    ∧ (∀ e, alistLookup fs cf = some (Except.error e) →
      load_config fs st cf lfp ll fm = (st, some e))
    ∧ ((load_config fsC4 stC4 "bad" none "DEBUG" none).1.configs
        = stC4.configs ++ [cfgBadLoaded]
      ∧ (load_config fsC4 stC4 "bad" none "DEBUG" none).1.listenerHandlers
        = stC4.listenerHandlers) := by
  refine ⟨?_, ?_, by decide, by decide⟩
  · intro h
    simp only [load_config, h]
  · intro e h
    simp only [load_config, h]

/-- Witness for the amended C4 theorem: a missing identifier leaves the
state exactly as it was, with a FileNotFoundError raised. -/
theorem load_failure_behavior_witness :
    load_config fsC4 stC4 "missing" none "DEBUG" none
      = (stC4, some (PyError.fileNotFound "missing")) :=
  (load_failure_behavior fsC4 stC4 "missing" none "DEBUG" none).1 rfl

/-- Helper: every pair delivered by the relay fold either was already in
the accumulator or satisfies the level comparison. -/
theorem relayFold_mem (q : List Record) (hs : List HandlerInstance)
    (acc : List (HandlerInstance × Record)) (pr : HandlerInstance × Record)
    (hmem : pr ∈ q.foldl (relayStep hs) acc) :
    pr ∈ acc ∨ handlerLevel pr.1 ≤ pr.2.level := by
  induction q generalizing acc with
  | nil => exact Or.inl hmem
  | cons r rest ih =>
    rcases ih (relayStep hs acc r) (by simpa using hmem) with h | h
    · simp only [relayStep, List.mem_append, List.mem_map, List.mem_filter] at h
      rcases h with h | ⟨h1, h2, h3⟩
      · exact Or.inl h
      · rcases Bool.and_eq_true .. |>.mp h2.2 with ⟨hle, _⟩
        subst h3
        exact Or.inr (of_decide_eq_true hle)
    · exact Or.inr h

/-- Helper: the flush fold only grows the delivered list. -/
theorem flushFold_mono (q : List Record) (hs : List HandlerInstance)
    (acc : List (HandlerInstance × Record)) (pr : HandlerInstance × Record)
    (hmem : pr ∈ acc) : pr ∈ q.foldl (flushStep hs) acc := by
  induction q generalizing acc with
  | nil => exact hmem
  | cons r rest ih =>
    exact ih (flushStep hs acc r) (by simp [flushStep, hmem])

/-- Helper: the flush path delivers every queued record to every listener
handler. -/
theorem flushFold_all (q : List Record) (hs : List HandlerInstance)
    (acc : List (HandlerInstance × Record)) (h : HandlerInstance) (r : Record)
    (hh : h ∈ hs) (hr : r ∈ q) : (h, r) ∈ q.foldl (flushStep hs) acc := by
  induction q generalizing acc with
  | nil => cases hr
  | cons r0 rest ih =>
    rcases List.mem_cons.mp hr with heq | hmem
    · subst heq
      refine flushFold_mono rest hs (flushStep hs acc r) (h, r) ?_
      simp [flushStep, handlerHandle, List.mem_filter, hh]
    · exact ih (flushStep hs acc r0) hmem

/-- C6 amended: a handler instance whose severity threshold is ERROR (40)
never receives an INFO (20) record on the background queue-relay path; the
manual flush path, which calls Handler.handle with no level comparison,
delivers every queued record to every listener handler, so such a sink does
receive the record there. -/
theorem error_sink_info_record_paths (hs : List HandlerInstance)
    (q : List Record) (h : HandlerInstance) (r : Record)
    (hlvl : handlerLevel h = 40) (hrec : r.level = 20) :
    (h, r) ∉ queueRelayDeliveries hs q
    ∧ (h ∈ hs → r ∈ q → (h, r) ∈ flushQueueDeliveries hs q) := by
  constructor
  · intro hmem
    rcases relayFold_mem q hs [] (h, r) hmem with hin | hle
    · cases hin
    · rw [hlvl, hrec] at hle
      omega
  · intro hh hr
    exact flushFold_all q hs [] h r hh hr

/-- A handler instance whose level was set to ERROR. -/
def errorHandlerC6 : HandlerInstance :=
  { kind := HandlerKind.stream, params := [], level := some 40 }

/-- An INFO-level record. -/
def infoRecordC6 : Record := { loggerName := "app", level := 20, msg := "m" }

/-- C6 counterexample: on the manual flush path the ERROR-threshold sink
does receive the INFO record, because flush_queue calls Handler.handle
directly and Handler.handle performs no level check. -/
theorem error_sink_receives_info_on_flush :
    handlerLevel errorHandlerC6 = 40
    ∧ infoRecordC6.level = 20
    ∧ (errorHandlerC6, infoRecordC6)
        ∈ flushQueueDeliveries [errorHandlerC6] [infoRecordC6] := by
  refine ⟨rfl, rfl, ?_⟩
  show (errorHandlerC6, infoRecordC6)
      ∈ flushStep [errorHandlerC6] [] infoRecordC6
  simp [flushStep, handlerHandle]

/-- Witness for the amended C6 theorem at the concrete ERROR handler and
INFO record. -/
theorem error_sink_paths_witness :
    (errorHandlerC6, infoRecordC6)
      ∉ queueRelayDeliveries [errorHandlerC6] [infoRecordC6]
    ∧ (errorHandlerC6, infoRecordC6)
      ∈ flushQueueDeliveries [errorHandlerC6] [infoRecordC6] :=
  ⟨(error_sink_info_record_paths [errorHandlerC6] [infoRecordC6]
      errorHandlerC6 infoRecordC6 rfl rfl).1,
   (error_sink_info_record_paths [errorHandlerC6] [infoRecordC6]
      errorHandlerC6 infoRecordC6 rfl rfl).2 (by simp) (by simp)⟩

/-- C5: for a non-KeyboardInterrupt failure the hook's critical records are
exactly the start marker, the single joined-traceback record and the end
marker — one failure record delimited by the two marker lines — and the
trace ends with sys.exit(1); for a KeyboardInterrupt the hook performs no
logging at all and only hands the failure to the default excepthook. -/
theorem uncaught_hook_behavior (lines : List String) :
    criticalMsgs (log_uncaught_exceptions false lines)
      = [tbStartMarker, String.intercalate "\n" lines, tbEndMarker]
    ∧ (log_uncaught_exceptions false lines).getLast?
      = some (HookOp.exitStatus 1)
    ∧ log_uncaught_exceptions true lines
      = [HookOp.getLogger "uncaught_exceptions", HookOp.defaultExcepthook] := by
  exact ⟨rfl, rfl, rfl⟩

/-- C9: the uncaught-exception hook never invokes flush_queue — no flush
operation occurs in its trace for a non-KeyboardInterrupt failure even
though the trace does terminate the process with exit status 1. -/
theorem uncaught_hook_never_flushes (lines : List String) :
    HookOp.flushQueueCall ∉ log_uncaught_exceptions false lines
    ∧ (log_uncaught_exceptions false lines).getLast?
      = some (HookOp.exitStatus 1) := by
  refine ⟨?_, rfl⟩
  simp [log_uncaught_exceptions]

/-- A load tuple with its formatter component erased. -/
def dropFmtr (it : LoadItem) : String × Option String × String :=
  (it.file, it.path, it.level)

/-- Helper: load_configs gives identical results on tuple lists that agree
after erasing the formatter components, since load_config never reads its
formatter argument. -/
theorem load_configs_fmtr_irrelevant (fs : FileStore) :
    ∀ (items1 items2 : List LoadItem) (st : BubState),
      items1.map dropFmtr = items2.map dropFmtr →
      load_configs fs st items1 = load_configs fs st items2 := by
  intro items1
  induction items1 with
  | nil =>
    intro items2 st h
    cases items2 with
    | nil => rfl
    | cons b bs => simp at h
  | cons a as ih =>
    intro items2 st h
    cases items2 with
    | nil => simp at h
    | cons b bs =>
      simp only [List.map_cons, List.cons.injEq, dropFmtr,
        Prod.mk.injEq] at h
      obtain ⟨⟨hf, hp, hl⟩, hrest⟩ := h
      have hsame : load_config fs st a.file a.path a.level a.fmtr
          = load_config fs st b.file b.path b.level b.fmtr := by
        rw [hf, hp, hl]
        rfl
      simp only [load_configs, hsame]
      cases hres : load_config fs st b.file b.path b.level b.fmtr with
      | mk st1 e =>
        cases e with
        | none => exact ih bs st1 hrest
        | some err => rfl

/-- C10: the formatter argument is dead code — load_config, get_instance
and load_configs give identical resulting states, errors and handler sets
when only the formatter components of their arguments differ. -/
theorem formatter_argument_has_no_effect (fs : FileStore) (st : BubState)
    (cf : String) (lfp : Option String) (ll : String)
    (f1 f2 : Option String) (ocf : Option String)
    (items1 items2 : List LoadItem)
    (hitems : items1.map dropFmtr = items2.map dropFmtr) :
    load_config fs st cf lfp ll f1 = load_config fs st cf lfp ll f2
    ∧ get_instance fs ocf lfp ll f1 = get_instance fs ocf lfp ll f2
    ∧ load_configs fs st items1 = load_configs fs st items2 := by
  refine ⟨rfl, ?_, load_configs_fmtr_irrelevant fs items1 items2 st hitems⟩
  cases ocf with
  | none => rfl
  | some cf0 => rfl

/-- Witness for the C10 theorem at concrete arguments differing only in
their formatter components. -/
theorem formatter_argument_witness :
    load_config fsC4 stC4 "good" none "DEBUG" (some "f")
      = load_config fsC4 stC4 "good" none "DEBUG" none
    ∧ load_configs fsC4 initState [{ file := "good", fmtr := some "f" }]
      = load_configs fsC4 initState [{ file := "good", fmtr := none }] :=
  ⟨(formatter_argument_has_no_effect fsC4 stC4 "good" none "DEBUG"
      (some "f") none none [] [] rfl).1,
   (formatter_argument_has_no_effect fsC4 initState "good" none "DEBUG"
      (some "f") none none
      [{ file := "good", fmtr := some "f" }]
      [{ file := "good", fmtr := none }] rfl).2.2⟩
